import Mathlib

/-!
Shallow embedding of `main.go` of the apigateway-rotator repository.

Conventions of the embedding:
* Go slices and strings become `List`/`String`; machine integers become `Nat`/`Int`.
* The global pseudo-random source (`rand.Intn`, `rand.Uint32`) is passed in as an
  explicit parameter: `r` is the value the generator would feed to `Intn`, `u` is
  the `uint32` drawn by `rand.Uint32` (reduced `% 2^32`).
* A Go runtime panic (out-of-range index, `rand.Intn` with a non-positive bound)
  is modelled as `none` / `RerouteOutcome.panicked`.
* `net/url.Parse` is modelled by `urlParse`, restricted to `https://` URLs over a
  conservative character set (letters, digits, `.`, `-`, `/`, `_`, `?`, `=`, `&`).
  On strings over this set Go's `url.Parse` succeeds and produces exactly the
  components the model produces; characters outside the set (in particular control
  characters, which Go rejects) make the model fail.
-/

namespace AGR

/-- `net/http.Header`: a map from canonical header keys to lists of values,
modelled as an association list (the keys used by the program are literal
canonical strings). -/
abbrev Header := List (String × List String)

/-- Lookup of the value list stored under a key (`none` when the key is absent). -/
def headerLookup (h : Header) (k : String) : Option (List String) :=
  match h with
  | [] => none
  | (k1, vs) :: t => if k1 = k then some vs else headerLookup t k

/-- `Header.Get`: first value stored under the key, `""` when absent or empty. -/
def headerGet (h : Header) (k : String) : String :=
  match headerLookup h k with
  | some (v :: _) => v
  | _ => ""

/-- `Header.Add`: append a value to the key's entry, creating the entry if needed. -/
def headerAdd (h : Header) (k v : String) : Header :=
  match h with
  | [] => [(k, [v])]
  | (k1, vs) :: t => if k1 = k then (k1, vs ++ [v]) :: t else (k1, vs) :: headerAdd t k v

/-- `Header.Del`: remove the key's entry. -/
def headerDel (h : Header) (k : String) : Header :=
  match h with
  | [] => []
  | (k1, vs) :: t => if k1 = k then headerDel t k else (k1, vs) :: headerDel t k

/-- `net/url.URL`, restricted to the fields the program uses. -/
structure URL where
  scheme : String
  host : String
  path : String
  rawQuery : String
deriving DecidableEq, Repr

/-- `net/http.Request`, restricted to the fields `Reroute` touches:
`URL`, `Host` and the header collection. -/
structure Request where
  url : URL
  host : String
  header : Header
deriving DecidableEq

/-- The `ApiGateway` struct of `main.go`. -/
structure ApiGateway where
  Site : String
  Name : String
  Endpoints : List String
  Regions : List String
deriving DecidableEq, Repr

/-- `DefaultRegions` of `main.go`. -/
def DefaultRegions : List String := ["us-east-1", "us-east-2"]

/-- Characters Go's `url.Parse` keeps verbatim in a host component (conservative set). -/
def hostChar (c : Char) : Bool := c.isAlphanum || c == '.' || c == '-'

/-- Characters Go's `url.Parse` keeps verbatim in a path component (conservative set). -/
def pathChar (c : Char) : Bool := hostChar c || c == '/' || c == '_'

/-- Characters Go's `url.Parse` keeps verbatim in a raw query (conservative set). -/
def queryChar (c : Char) : Bool := hostChar c || c == '=' || c == '&' || c == '_'

/-- Model of `url.Parse` on `https://` URLs, at the character-list level: split the
authority at the first `/`, split the query at the first `?`, and succeed only over
the conservative character set described in the file header. -/
def urlParseCore : List Char → Option URL
  | 'h' :: 't' :: 't' :: 'p' :: 's' :: ':' :: '/' :: '/' :: rest =>
    let host := rest.takeWhile (fun c => c != '/')
    let after := rest.dropWhile (fun c => c != '/')
    let path := after.takeWhile (fun c => c != '?')
    let query := (after.dropWhile (fun c => c != '?')).drop 1
    if host.all hostChar && path.all pathChar && query.all queryChar then
      some ⟨"https", String.mk host, String.mk path, String.mk query⟩
    else none
  | _ => none

/-- Model of `url.Parse` (see `urlParseCore`). -/
def urlParse (s : String) : Option URL := urlParseCore s.data

/-- `randomIpv4` of `main.go`: the four bytes of `rand.Uint32()` laid out
little-endian by `binary.LittleEndian.PutUint32` into a 4-byte `net.IP`.
`u` is the drawn `uint32`, reduced `% 2^32`. -/
def randomIpv4 (u : Nat) : List Nat :=
  let x := u % 4294967296
  [x % 256, x / 256 % 256, x / 65536 % 256, x / 16777216 % 256]

/-- `net.IP.String` on a 4-byte IP: the octets in decimal, joined by dots. -/
def ipv4String (bs : List Nat) : String :=
  String.intercalate "." (bs.map (fun b => toString b))

/-- `strings.TrimRight(s, "/")` at the character-list level. -/
def trimSlash (l : List Char) : List Char :=
  (l.reverse.dropWhile (fun c => c = '/')).reverse

/-- `NewApiGateway` of `main.go`. The result is `none` when the function panics
(`site[len(site)-1]` on the empty string); otherwise `some (gateway, err)` where
the `Bool` models the returned `error` (`false` = `nil`, which is the only error
value the function ever constructs). -/
def NewApiGateway (site name : String) : Option (ApiGateway × Bool) :=
  if site.length = 0 then
    none
  else
    let site2 := if site.back = '/' then String.mk (trimSlash site.data) else site
    some (⟨site2, name, [], DefaultRegions⟩, false)

/-- `rand.Intn(n)`: panics (`none`) when `n ≤ 0`, otherwise some value in `[0, n)`;
`r` chooses which value. -/
def intn (n : Int) (r : Nat) : Option Nat :=
  if n ≤ 0 then none else some (r % n.toNat)

/-- The endpoint selection of `Reroute`:
`ag.Endpoints[rand.Intn(len(ag.Endpoints)-1)]`. `none` models a panic. -/
def selectedEndpoint (ag : ApiGateway) (r : Nat) : Option String :=
  match intn ((ag.Endpoints.length : Int) - 1) r with
  | none => none
  | some i => ag.Endpoints[i]?

/-- Outcome of `Reroute`: either a runtime panic or a returned request
(the Go function's only return value is `*http.Request`; it has no error result). -/
inductive RerouteOutcome where
  | panicked
  | returned (req : Request)
deriving DecidableEq

/-- `Reroute` of `main.go`. `r` drives `rand.Intn`, `u` is the `uint32` behind
`randomIpv4`. Steps, in source order: select a random endpoint (panic modelled as
`.panicked`), parse `"https://" + endpoint + "/ProxyStage/" + request.Host`
(on failure the request is returned as-is), set `URL` and `Host`, move
`X-Forwarded-For` into `X-Forwarded-For-Temp` (synthesizing a random IPv4 when
absent), and delete `X-Forwarded-For`. -/
def Reroute (ag : ApiGateway) (r u : Nat) (req : Request) : RerouteOutcome :=
  match selectedEndpoint ag r with
  | none => .panicked
  | some endpoint =>
    match urlParse ("https://" ++ endpoint ++ "/ProxyStage/" ++ req.host) with
    | none => .returned req
    | some proxyUrl =>
      let req1 : Request := { req with url := proxyUrl, host := endpoint }
      let v := headerGet req1.header "X-Forwarded-For"
      let hdr :=
        if v = "" then
          headerAdd req1.header "X-Forwarded-For-Temp" (ipv4String (randomIpv4 u))
        else
          headerAdd req1.header "X-Forwarded-For-Temp" v
      .returned { req1 with header := headerDel hdr "X-Forwarded-For" }

/-- `types.RestApi`, restricted to the field the program reads (`*Id`). -/
structure RestApi where
  id : String
deriving DecidableEq, Repr

/-- The hostname `fmt.Sprintf("%s.execute-api.%s.amazonaws.com", id, region)`
built by `Initialize` and `GetEndpoints`. -/
def endpointHost (id region : String) : String :=
  id ++ ".execute-api." ++ region ++ ".amazonaws.com"

/-- One response of the provisioner client's `GetRestApis`: an error, or a page of
items together with the optional pagination `Position` marker. -/
inductive PageResp where
  | fail
  | ok (items : List RestApi) (position : Option String)

/-- How `GetGateways` turns its `defaultPosition` string into the request's
optional `Position` parameter: the parameter is set only when the string is
non-empty. -/
def goPos (s : String) : Option String := if s = "" then none else some s

/-- The `for !complete` loop of `GetGateways`. The client is modelled as a
function from the sent `Position` parameter to the response. `fuel` bounds the
number of iterations so the definition is total; `none` means the loop was still
running when the fuel ran out (theorems always supply enough fuel). On a client
error the loop returns the accumulated result together with the error
(`Bool` = `true` mirrors `return &result, fmt.Errorf(...)`); when the response
carries a `Position` the loop appends the items and continues with that cursor;
when it does not, the loop appends the items and completes without error. -/
def getGatewaysLoop (client : Option String → PageResp) :
    Nat → String → List RestApi → Option (List RestApi × Bool)
  | 0, _, _ => none
  | fuel + 1, pos, acc =>
    match client (goPos pos) with
    | .fail => some (acc, true)
    | .ok items (some p) => getGatewaysLoop client fuel p (acc ++ items)
    | .ok items none => some (acc ++ items, false)

/-- `GetGateways` of `main.go`: run the pagination loop from the empty initial
position with an empty accumulator. The receiver `ag` is passed through
unchanged — the method reads and writes none of its fields. -/
def GetGateways (ag : ApiGateway) (client : Option String → PageResp) (fuel : Nat) :
    ApiGateway × Option (List RestApi × Bool) :=
  (ag, getGatewaysLoop client fuel "" [])

/-- `GetEndpoints` of `main.go`: call `GetGateways`; on error return the empty
list with the error; on success map every reported resource id to its
`{id}.execute-api.{region}.amazonaws.com` hostname. -/
def GetEndpoints (ag : ApiGateway) (region : String) (client : Option String → PageResp)
    (fuel : Nat) : ApiGateway × Option (List String × Bool) :=
  match GetGateways ag client fuel with
  | (ag1, none) => (ag1, none)
  | (ag1, some (_, true)) => (ag1, some ([], true))
  | (ag1, some (apis, false)) =>
    (ag1, some (apis.map (fun a => endpointHost a.id region), false))

/-- A complete pagination dialogue with the client starting at position `pos`:
`PagesTrace client pos items` holds when successive requests, each carrying the
cursor returned by the previous response, succeed and collect `items` across all
pages, the last response carrying no position marker. -/
inductive PagesTrace (client : Option String → PageResp) : String → List RestApi → Prop
  | last (pos : String) (items : List RestApi) :
      client (goPos pos) = .ok items none → PagesTrace client pos items
  | step (pos : String) (items : List RestApi) (p : String) (rest : List RestApi) :
      client (goPos pos) = .ok items (some p) → PagesTrace client p rest →
      PagesTrace client pos (items ++ rest)

/-- Outcomes of the provisioner calls `Initialize` makes, in source order. A
`Bool` field is `true` when the call succeeds; an `Option` field is `some` of the
created resource's id on success and `none` on error. (The `config.LoadDefaultConfig`
and `GetRestApis` panics abort the method before any mutation and are outside
this model.) -/
structure AwsOutcomes where
  apiExists : Bool
  createRestApi : Option String
  putMethodRoot : Bool
  putIntegrationRoot : Bool
  createResource : Option String
  putMethodWildcard : Bool
  putIntegrationWildcard : Bool
  createDeployment : Bool

/-- `Initialize` of `main.go`: each provisioner step returns its error before any
field of the receiver is written; only after every step has succeeded is the new
`{id}.execute-api.{region}.amazonaws.com` hostname appended to `Endpoints`. The
returned `Bool` models the `error` result (`true` = non-nil). -/
def Initialize (ag : ApiGateway) (region : String) (o : AwsOutcomes) : ApiGateway × Bool :=
  if o.apiExists then (ag, true)
  else
    match o.createRestApi with
    | none => (ag, true)
    | some newApiId =>
      if !o.putMethodRoot then (ag, true)
      else if !o.putIntegrationRoot then (ag, true)
      else
        match o.createResource with
        | none => (ag, true)
        | some _wildcardId =>
          if !o.putMethodWildcard then (ag, true)
          else if !o.putIntegrationWildcard then (ag, true)
          else if !o.createDeployment then (ag, true)
          else ({ ag with Endpoints := ag.Endpoints ++ [endpointHost newApiId region] }, false)

/-! ### Helper lemmas -/

lemma takeWhile_all_eq {α : Type} (p : α → Bool) :
    ∀ l : List α, (∀ c ∈ l, p c = true) → l.takeWhile p = l ∧ l.dropWhile p = []
  | [], _ => ⟨rfl, rfl⟩
  | a :: t, h => by
    have ha : p a = true := h a (List.mem_cons_self a t)
    have ih := takeWhile_all_eq p t (fun c hc => h c (List.mem_cons_of_mem a hc))
    simp [List.takeWhile_cons, List.dropWhile_cons, ha, ih.1, ih.2]

lemma takeWhile_split {α : Type} (p : α → Bool) :
    ∀ (l : List α) (x : α) (r : List α), (∀ c ∈ l, p c = true) → p x = false →
      ((l ++ x :: r).takeWhile p = l ∧ (l ++ x :: r).dropWhile p = x :: r)
  | [], x, r, _, hx => by simp [List.takeWhile_cons, List.dropWhile_cons, hx]
  | a :: t, x, r, h, hx => by
    have ha : p a = true := h a (List.mem_cons_self a t)
    have ih := takeWhile_split p t x r (fun c hc => h c (List.mem_cons_of_mem a hc)) hx
    simp [List.takeWhile_cons, List.dropWhile_cons, ha, ih.1, ih.2]

lemma hostChar_ne_slash {c : Char} (h : hostChar c = true) : (c != '/') = true := by
  rcases eq_or_ne c '/' with rfl | h2
  · exact absurd h (by decide)
  · simp [h2]

lemma hostChar_ne_qmark {c : Char} (h : hostChar c = true) : (c != '?') = true := by
  rcases eq_or_ne c '?' with rfl | h2
  · exact absurd h (by decide)
  · simp [h2]

lemma hostChar_pathChar {c : Char} (h : hostChar c = true) : pathChar c = true := by
  simp [pathChar, h]

lemma urlParse_https (e h : String) (he : ∀ c ∈ e.data, hostChar c = true)
    (hh : ∀ c ∈ h.data, hostChar c = true) :
    urlParse ("https://" ++ e ++ "/ProxyStage/" ++ h)
      = some ⟨"https", e, "/ProxyStage/" ++ h, ""⟩ := by
  have hps : ("/ProxyStage/").data
      = '/' :: ['P', 'r', 'o', 'x', 'y', 'S', 't', 'a', 'g', 'e', '/'] := by decide
  have hsplit : ("https://" ++ e ++ "/ProxyStage/" ++ h).data
      = 'h' :: 't' :: 't' :: 'p' :: 's' :: ':' :: '/' :: '/' ::
        (e.data ++ '/' :: (['P', 'r', 'o', 'x', 'y', 'S', 't', 'a', 'g', 'e', '/'] ++ h.data)) := by
    rw [String.data_append, String.data_append, String.data_append, hps]
    simp [String.data_append]
  have htake := takeWhile_split (fun c => c != '/') e.data '/'
      (['P', 'r', 'o', 'x', 'y', 'S', 't', 'a', 'g', 'e', '/'] ++ h.data)
      (fun c hc => hostChar_ne_slash (he c hc)) (by decide)
  have hafter : ∀ c ∈ '/' :: (['P', 'r', 'o', 'x', 'y', 'S', 't', 'a', 'g', 'e', '/'] ++ h.data),
      (c != '?') = true := by
    intro c hc
    rcases List.mem_cons.mp hc with rfl | hc2
    · decide
    · rcases List.mem_append.mp hc2 with hc3 | hc4
      · fin_cases hc3 <;> decide
      · exact hostChar_ne_qmark (hh c hc4)
  have hpath := takeWhile_all_eq (fun c => c != '?')
      ('/' :: (['P', 'r', 'o', 'x', 'y', 'S', 't', 'a', 'g', 'e', '/'] ++ h.data)) hafter
  have hallhost : (e.data.all hostChar) = true := List.all_eq_true.mpr he
  have hallpath :
      (('/' :: (['P', 'r', 'o', 'x', 'y', 'S', 't', 'a', 'g', 'e', '/'] ++ h.data)).all pathChar)
        = true := by
    apply List.all_eq_true.mpr
    intro c hc
    rcases List.mem_cons.mp hc with rfl | hc2
    · decide
    · rcases List.mem_append.mp hc2 with hc3 | hc4
      · fin_cases hc3 <;> decide
      · exact hostChar_pathChar (hh c hc4)
  have hmkpath : String.mk ('/' :: (['P', 'r', 'o', 'x', 'y', 'S', 't', 'a', 'g', 'e', '/'] ++ h.data))
      = "/ProxyStage/" ++ h := by
    apply String.ext
    rw [String.data_append, hps]
    simp
  unfold urlParse
  rw [hsplit]
  unfold urlParseCore
  simp only [htake.1, htake.2, hpath.1, hpath.2, hallhost, hallpath, List.drop_nil,
    List.all_nil, Bool.and_true, Bool.true_and, List.drop]
  simp only [if_pos rfl, hmkpath]
  rfl

lemma headerLookup_add_self (k v : String) :
    ∀ h : Header, headerLookup h k = none → headerLookup (headerAdd h k v) k = some [v]
  | [], _ => by simp [headerAdd, headerLookup]
  | (k1, vs) :: t, hnone => by
    by_cases hk : k1 = k
    · exfalso
      simp [headerLookup, hk] at hnone
    · have ht : headerLookup t k = none := by
        simpa [headerLookup, hk] using hnone
      simp [headerAdd, headerLookup, hk, headerLookup_add_self k v t ht]

lemma headerLookup_del_self (k : String) :
    ∀ h : Header, headerLookup (headerDel h k) k = none
  | [] => rfl
  | (k1, vs) :: t => by
    by_cases hk : k1 = k
    · simp [headerDel, hk, headerLookup_del_self k t]
    · simp [headerDel, headerLookup, hk, headerLookup_del_self k t]

lemma headerLookup_del_other (k k2 : String) (hne : k2 ≠ k) :
    ∀ h : Header, headerLookup (headerDel h k) k2 = headerLookup h k2
  | [] => rfl
  | (k1, vs) :: t => by
    by_cases hk : k1 = k
    · subst hk
      have hk12 : ¬ (k1 = k2) := fun hc => hne hc.symm
      simp [headerDel, headerLookup, hk12, headerLookup_del_other k1 k2 hne t]
    · by_cases hk2 : k1 = k2
      · subst hk2
        simp [headerDel, headerLookup, hk]
      · simp [headerDel, headerLookup, hk, hk2, headerLookup_del_other k k2 hne t]

/-- The shape of a successful `Reroute`: when endpoint selection yields `e` and
both `e` and the original `request.Host` lie in the conservative host character
set (so the `url.Parse` model succeeds), the returned request is exactly the
input with URL `https://e/ProxyStage/{host}`, Host `e`, and the forwarded-for
header swap applied. -/
lemma reroute_success_eq (ag : ApiGateway) (r u : Nat) (req : Request) (e : String)
    (hsel : selectedEndpoint ag r = some e)
    (he : ∀ c ∈ e.data, hostChar c = true)
    (hh : ∀ c ∈ req.host.data, hostChar c = true) :
    Reroute ag r u req = .returned
      { url := ⟨"https", e, "/ProxyStage/" ++ req.host, ""⟩
      , host := e
      , header := headerDel (headerAdd req.header "X-Forwarded-For-Temp"
          (if headerGet req.header "X-Forwarded-For" = "" then ipv4String (randomIpv4 u)
           else headerGet req.header "X-Forwarded-For")) "X-Forwarded-For" } := by
  unfold Reroute
  simp only [hsel]
  simp only [urlParse_https e req.host he hh]
  by_cases hv : headerGet req.header "X-Forwarded-For" = "" <;>
    simp [hv]

lemma ipv4String_quad (b0 b1 b2 b3 : Nat) :
    ipv4String [b0, b1, b2, b3]
      = toString b0 ++ "." ++ toString b1 ++ "." ++ toString b2 ++ "." ++ toString b3 := rfl

/-! ### Claims -/

/-- C1: the claim states that `Reroute` selects an endpoint uniformly over the
full index range `[0, len)` and cannot fail on a one-element list. The code does
neither: `ag.Endpoints[rand.Intn(len(ag.Endpoints)-1)]` panics on a one-element
list (`rand.Intn(0)`), and with two endpoints `rand.Intn(1)` is always `0`, so
the last endpoint is never chosen. This theorem evaluates the code at both
failing situations. -/
theorem reroute_selection_off_by_one :
    (∀ (r u : Nat) (req : Request),
      Reroute ⟨"https://origin.test", "gw", ["only.example.com"], DefaultRegions⟩ r u req
        = RerouteOutcome.panicked)
    ∧ (∀ r : Nat, intn ((2 : Int) - 1) r = some 0) := by
  constructor
  · intro r u req
    rfl
  · intro r
    norm_num [intn, Nat.mod_one]

/-- C4: the claim states that selection on an empty endpoint list reports an
`EmptyEndpointSet` error and never crashes. The code instead panics:
`rand.Intn(len(ag.Endpoints)-1)` is `rand.Intn(-1)`, which panics. This theorem
evaluates the code at the failing input (empty `Endpoints`). -/
theorem reroute_empty_endpoints_panics :
    ∀ (r u : Nat) (req : Request),
      Reroute ⟨"https://origin.test", "gw", [], DefaultRegions⟩ r u req
        = RerouteOutcome.panicked := by
  intro r u req
  rfl

/-- C2 counterexample: for the request to `https://origin.test/path?x=1` routed
through endpoint `a1.example.com`, the rewritten path is
`/ProxyStage/origin.test` — the original path `/path` (and the query) is dropped,
so the path is not `/ProxyStage/` ++ host ++ path as the claim states. -/
theorem reroute_drops_path_cex :
    Reroute ⟨"https://origin.test", "gw", ["a1.example.com", "b2.example.com"], DefaultRegions⟩
        0 0 ⟨⟨"https", "origin.test", "/path", "x=1"⟩, "origin.test", []⟩
      = RerouteOutcome.returned
          ⟨⟨"https", "a1.example.com", "/ProxyStage/origin.test", ""⟩, "a1.example.com",
            [("X-Forwarded-For-Temp", ["0.0.0.0"])]⟩
    ∧ ("/ProxyStage/origin.test" : String) ≠ "/ProxyStage/" ++ "origin.test" ++ "/path" := by
  exact ⟨rfl, by decide⟩

/-- C2 (amended): after `Reroute` rewrites a request with destination host `h` to
the chosen endpoint `e`, the URL's scheme is `https`, its host is `e`, its path is
the fixed stage segment `/ProxyStage/` followed by `h` alone — the original URL's
path and query are discarded, not appended — and the request's Host field is `e`. -/
theorem reroute_rewrite_shape (ag : ApiGateway) (r u : Nat) (req : Request) (e : String)
    (hsel : selectedEndpoint ag r = some e)
    (he : ∀ c ∈ e.data, hostChar c = true)
    (hh : ∀ c ∈ req.host.data, hostChar c = true) :
    ∃ q : Request, Reroute ag r u req = RerouteOutcome.returned q
      ∧ q.url.scheme = "https" ∧ q.url.host = e
      ∧ q.url.path = "/ProxyStage/" ++ req.host ∧ q.url.rawQuery = ""
      ∧ q.host = e :=
  ⟨_, reroute_success_eq ag r u req e hsel he hh, rfl, rfl, rfl, rfl, rfl⟩

/-- Witness for C2 (amended) at a concrete gateway and request. -/
theorem reroute_rewrite_shape_witness :
    ∃ q : Request,
      Reroute ⟨"https://origin.test", "gw", ["a1.example.com", "b2.example.com"], DefaultRegions⟩
          0 0 ⟨⟨"https", "origin.test", "/path", "x=1"⟩, "origin.test", []⟩
        = RerouteOutcome.returned q
      ∧ q.url.scheme = "https" ∧ q.url.host = "a1.example.com"
      ∧ q.url.path = "/ProxyStage/" ++ "origin.test" ∧ q.url.rawQuery = ""
      ∧ q.host = "a1.example.com" :=
  reroute_rewrite_shape
    ⟨"https://origin.test", "gw", ["a1.example.com", "b2.example.com"], DefaultRegions⟩ 0 0
    ⟨⟨"https", "origin.test", "/path", "x=1"⟩, "origin.test", []⟩ "a1.example.com"
    (by decide) (by decide) (by decide)

/-- Formalization of claim C5 as stated: whenever the rewritten destination URL
cannot be constructed (the parse fails), `Reroute` reports the failure as an
error to the caller — that is, it does not simply hand back a request value the
way a successful call does. -/
def rerouteReportsMalformedDestination : Prop :=
  ∀ (ag : ApiGateway) (r u : Nat) (req : Request) (e : String),
    selectedEndpoint ag r = some e →
    urlParse ("https://" ++ e ++ "/ProxyStage/" ++ req.host) = none →
    ∀ q : Request, Reroute ag r u req ≠ RerouteOutcome.returned q

/-- C5 counterexample: the claim's error-reporting half is false. `Reroute`
returns only a `*http.Request` and has no error result; at a request whose Host
contains a NUL byte (which `url.Parse` rejects) it returns the original request
with no error indication whatsoever. -/
theorem reroute_no_error_on_malformed : ¬ rerouteReportsMalformedDestination := by
  intro hclaim
  exact hclaim
    ⟨"https://origin.test", "gw", ["a1.example.com", "b2.example.com"], DefaultRegions⟩
    0 0 ⟨⟨"https", "origin.test", "/path", ""⟩, "bad\x00host", []⟩ "a1.example.com"
    (by decide) (by decide) _ rfl

/-- C5 (amended): when the rewritten destination URL fails to parse, `Reroute`
returns the original request fully unmodified (URL, Host and headers exactly as
supplied) — the parse precedes every mutation, so no partial mutation is
possible — but it reports no error value: the function has no error result, and
callers must detect the unmodified request themselves. -/
theorem reroute_malformed_returns_unmodified (ag : ApiGateway) (r u : Nat) (req : Request)
    (e : String) (hsel : selectedEndpoint ag r = some e)
    (hparse : urlParse ("https://" ++ e ++ "/ProxyStage/" ++ req.host) = none) :
    Reroute ag r u req = RerouteOutcome.returned req := by
  unfold Reroute
  simp only [hsel, hparse]

/-- Witness for C5 (amended) at a concrete malformed destination. -/
theorem reroute_malformed_returns_unmodified_witness :
    Reroute ⟨"https://origin.test", "gw", ["a1.example.com", "b2.example.com"], DefaultRegions⟩
        0 0 ⟨⟨"https", "origin.test", "/path", ""⟩, "bad\x00host", []⟩
      = RerouteOutcome.returned ⟨⟨"https", "origin.test", "/path", ""⟩, "bad\x00host", []⟩ :=
  reroute_malformed_returns_unmodified
    ⟨"https://origin.test", "gw", ["a1.example.com", "b2.example.com"], DefaultRegions⟩ 0 0
    ⟨⟨"https", "origin.test", "/path", ""⟩, "bad\x00host", []⟩ "a1.example.com"
    (by decide) (by decide)

/-- C3: after a completed `Reroute` (selection succeeded, URL parse succeeded) on
a request that does not already carry the internal `X-Forwarded-For-Temp` header:
if the request carried `X-Forwarded-For: v` (v non-empty), then afterwards
`X-Forwarded-For` is absent and `X-Forwarded-For-Temp` holds exactly `v`; if the
request carried no `X-Forwarded-For`, then afterwards `X-Forwarded-For-Temp`
holds exactly the synthesized random IPv4 string and `X-Forwarded-For` is absent. -/
theorem reroute_forwarded_for_swap (ag : ApiGateway) (r u : Nat) (req : Request) (e : String)
    (hsel : selectedEndpoint ag r = some e)
    (he : ∀ c ∈ e.data, hostChar c = true)
    (hh : ∀ c ∈ req.host.data, hostChar c = true)
    (htmp : headerLookup req.header "X-Forwarded-For-Temp" = none) :
    (∀ v : String, headerGet req.header "X-Forwarded-For" = v → v ≠ "" →
      ∃ q : Request, Reroute ag r u req = RerouteOutcome.returned q
        ∧ headerLookup q.header "X-Forwarded-For" = none
        ∧ headerLookup q.header "X-Forwarded-For-Temp" = some [v])
    ∧ (headerGet req.header "X-Forwarded-For" = "" →
      ∃ q : Request, Reroute ag r u req = RerouteOutcome.returned q
        ∧ headerLookup q.header "X-Forwarded-For" = none
        ∧ headerLookup q.header "X-Forwarded-For-Temp"
            = some [ipv4String (randomIpv4 u)]) := by
  have hdist : ("X-Forwarded-For-Temp" : String) ≠ "X-Forwarded-For" := by decide
  have hbase := reroute_success_eq ag r u req e hsel he hh
  constructor
  · intro v hv hvne
    refine ⟨_, hbase, headerLookup_del_self _ _, ?_⟩
    show headerLookup (headerDel (headerAdd req.header "X-Forwarded-For-Temp"
        (if headerGet req.header "X-Forwarded-For" = "" then ipv4String (randomIpv4 u)
         else headerGet req.header "X-Forwarded-For")) "X-Forwarded-For")
        "X-Forwarded-For-Temp" = some [v]
    rw [headerLookup_del_other "X-Forwarded-For" "X-Forwarded-For-Temp" hdist,
      if_neg (show ¬ headerGet req.header "X-Forwarded-For" = "" from by
        rw [hv]; exact hvne), hv]
    exact headerLookup_add_self _ _ _ htmp
  · intro hv
    refine ⟨_, hbase, headerLookup_del_self _ _, ?_⟩
    show headerLookup (headerDel (headerAdd req.header "X-Forwarded-For-Temp"
        (if headerGet req.header "X-Forwarded-For" = "" then ipv4String (randomIpv4 u)
         else headerGet req.header "X-Forwarded-For")) "X-Forwarded-For")
        "X-Forwarded-For-Temp" = some [ipv4String (randomIpv4 u)]
    rw [headerLookup_del_other "X-Forwarded-For" "X-Forwarded-For-Temp" hdist, if_pos hv]
    exact headerLookup_add_self _ _ _ htmp

/-- Witness for C3 at a concrete request carrying `X-Forwarded-For: 203.0.113.7`. -/
theorem reroute_forwarded_for_swap_witness :
    ∃ q : Request,
      Reroute ⟨"https://origin.test", "gw", ["a1.example.com", "b2.example.com"], DefaultRegions⟩
          0 7 ⟨⟨"https", "origin.test", "/path", ""⟩, "origin.test",
            [("X-Forwarded-For", ["203.0.113.7"])]⟩
        = RerouteOutcome.returned q
      ∧ headerLookup q.header "X-Forwarded-For" = none
      ∧ headerLookup q.header "X-Forwarded-For-Temp" = some ["203.0.113.7"] :=
  (reroute_forwarded_for_swap
    ⟨"https://origin.test", "gw", ["a1.example.com", "b2.example.com"], DefaultRegions⟩ 0 7
    ⟨⟨"https", "origin.test", "/path", ""⟩, "origin.test",
      [("X-Forwarded-For", ["203.0.113.7"])]⟩ "a1.example.com"
    (by decide) (by decide) (by decide) (by decide)).1 "203.0.113.7" (by decide) (by decide)

/-- C10: `randomIpv4` always yields exactly four bytes, and when `Reroute`
synthesizes a forwarded-for value (no `X-Forwarded-For` on the request), the
string stored under `X-Forwarded-For-Temp` is the dotted quad of those four
octets, each below 256. -/
theorem reroute_synthesized_ip_dotted_quad (ag : ApiGateway) (r u : Nat) (req : Request)
    (e : String) (hsel : selectedEndpoint ag r = some e)
    (he : ∀ c ∈ e.data, hostChar c = true)
    (hh : ∀ c ∈ req.host.data, hostChar c = true)
    (htmp : headerLookup req.header "X-Forwarded-For-Temp" = none)
    (hxff : headerGet req.header "X-Forwarded-For" = "") :
    (∀ w : Nat, (randomIpv4 w).length = 4)
    ∧ ∃ (q : Request) (b0 b1 b2 b3 : Nat),
        randomIpv4 u = [b0, b1, b2, b3]
        ∧ b0 < 256 ∧ b1 < 256 ∧ b2 < 256 ∧ b3 < 256
        ∧ Reroute ag r u req = RerouteOutcome.returned q
        ∧ headerLookup q.header "X-Forwarded-For-Temp"
            = some [toString b0 ++ "." ++ toString b1 ++ "." ++ toString b2
                      ++ "." ++ toString b3] := by
  obtain ⟨q, hq, -, htempq⟩ :=
    (reroute_forwarded_for_swap ag r u req e hsel he hh htmp).2 hxff
  refine ⟨fun w => rfl, q, u % 4294967296 % 256, u % 4294967296 / 256 % 256,
    u % 4294967296 / 65536 % 256, u % 4294967296 / 16777216 % 256, rfl,
    Nat.mod_lt _ (by norm_num), Nat.mod_lt _ (by norm_num),
    Nat.mod_lt _ (by norm_num), Nat.mod_lt _ (by norm_num), hq, ?_⟩
  rw [htempq]
  rfl

/-- Witness for C10 at a concrete gateway, request and random draw. -/
theorem reroute_synthesized_ip_dotted_quad_witness :
    (∀ w : Nat, (randomIpv4 w).length = 4)
    ∧ ∃ (q : Request) (b0 b1 b2 b3 : Nat),
        randomIpv4 16909060 = [b0, b1, b2, b3]
        ∧ b0 < 256 ∧ b1 < 256 ∧ b2 < 256 ∧ b3 < 256
        ∧ Reroute
            ⟨"https://origin.test", "gw", ["a1.example.com", "b2.example.com"], DefaultRegions⟩
            0 16909060 ⟨⟨"https", "origin.test", "/path", ""⟩, "origin.test", []⟩
          = RerouteOutcome.returned q
        ∧ headerLookup q.header "X-Forwarded-For-Temp"
            = some [toString b0 ++ "." ++ toString b1 ++ "." ++ toString b2
                      ++ "." ++ toString b3] :=
  reroute_synthesized_ip_dotted_quad
    ⟨"https://origin.test", "gw", ["a1.example.com", "b2.example.com"], DefaultRegions⟩ 0 16909060
    ⟨⟨"https", "origin.test", "/path", ""⟩, "origin.test", []⟩ "a1.example.com"
    (by decide) (by decide) (by decide) (by decide) (by decide)

lemma string_of_length_zero {s : String} (h : s.length = 0) : s = "" := by
  cases s with
  | mk data =>
    have hd : data = [] := List.eq_nil_of_length_eq_zero h
    subst hd
    rfl

/-- C6: the `GetGateways` refresh loop requests the next page exactly when the
response carries a `Position` marker, continuing with the returned cursor, and
terminates exactly when the marker is absent; for any complete pagination
dialogue it collects the resources of all pages in order, and on success
`GetEndpoints` returns exactly the `{id}.execute-api.{region}.amazonaws.com`
hostname of every collected resource. -/
theorem getGateways_pagination (client : Option String → PageResp) :
    (∀ (fuel : Nat) (pos : String) (acc items : List RestApi) (p : String),
        client (goPos pos) = PageResp.ok items (some p) →
        getGatewaysLoop client (fuel + 1) pos acc
          = getGatewaysLoop client fuel p (acc ++ items))
    ∧ (∀ (fuel : Nat) (pos : String) (acc items : List RestApi),
        client (goPos pos) = PageResp.ok items none →
        getGatewaysLoop client (fuel + 1) pos acc = some (acc ++ items, false))
    ∧ (∀ (pos : String) (pages : List RestApi), PagesTrace client pos pages →
        ∀ acc : List RestApi, ∃ fuel : Nat,
          getGatewaysLoop client fuel pos acc = some (acc ++ pages, false))
    ∧ (∀ (ag : ApiGateway) (region : String) (fuel : Nat) (apis : List RestApi),
        getGatewaysLoop client fuel "" [] = some (apis, false) →
        GetEndpoints ag region client fuel
          = (ag, some (apis.map (fun a => endpointHost a.id region), false))) := by
  refine ⟨?_, ?_, ?_, ?_⟩
  · intro fuel pos acc items p h
    simp [getGatewaysLoop, h]
  · intro fuel pos acc items h
    simp [getGatewaysLoop, h]
  · intro pos pages htr
    induction htr with
    | last pos items h =>
      intro acc
      exact ⟨1, by simp [getGatewaysLoop, h]⟩
    | step pos items p rest h htr ih =>
      intro acc
      obtain ⟨fuel, hf⟩ := ih (acc ++ items)
      refine ⟨fuel + 1, ?_⟩
      have hstep : getGatewaysLoop client (fuel + 1) pos acc
          = getGatewaysLoop client fuel p (acc ++ items) := by
        simp [getGatewaysLoop, h]
      rw [hstep, hf, List.append_assoc]
  · intro ag region fuel apis h
    simp [GetEndpoints, GetGateways, h]

/-- Witness for C6: a two-page dialogue (`Position` present on the first page,
absent on the second) yields exactly the two derived hostnames. -/
theorem getGateways_pagination_witness :
    GetEndpoints ⟨"https://origin.test", "gw", [], DefaultRegions⟩ "us-east-1"
        (fun c => match c with
          | none => PageResp.ok [⟨"aaa"⟩] (some "p2")
          | some s => if s = "p2" then PageResp.ok [⟨"bbb"⟩] none else PageResp.fail) 2
      = (⟨"https://origin.test", "gw", [], DefaultRegions⟩,
          some (["aaa.execute-api.us-east-1.amazonaws.com",
                 "bbb.execute-api.us-east-1.amazonaws.com"], false)) :=
  (getGateways_pagination
      (fun c => match c with
        | none => PageResp.ok [⟨"aaa"⟩] (some "p2")
        | some s => if s = "p2" then PageResp.ok [⟨"bbb"⟩] none else PageResp.fail)).2.2.2
    ⟨"https://origin.test", "gw", [], DefaultRegions⟩ "us-east-1" 2 [⟨"aaa"⟩, ⟨"bbb"⟩] rfl

/-- C7: when the provisioner fails on some page, the refresh aborts with an
error (`true` flag), the gateway value — in particular its previous `Endpoints`
list — is returned unchanged, and the partial results accumulated from earlier
pages are discarded: `GetEndpoints` hands its caller the empty list, not the
partially collected one. -/
theorem getEndpoints_error_discards (ag : ApiGateway) (region : String)
    (client : Option String → PageResp) (fuel : Nat) (apis : List RestApi)
    (h : getGatewaysLoop client fuel "" [] = some (apis, true)) :
    GetEndpoints ag region client fuel = (ag, some ([], true)) := by
  simp [GetEndpoints, GetGateways, h]

/-- Witness for C7: the first page succeeds, the second fails; the partially
collected resource `aaa` is discarded and the previous endpoint list survives. -/
theorem getEndpoints_error_discards_witness :
    GetEndpoints ⟨"https://origin.test", "gw", ["old.example.com"], DefaultRegions⟩ "us-east-1"
        (fun c => match c with
          | none => PageResp.ok [⟨"aaa"⟩] (some "p2")
          | some _ => PageResp.fail) 2
      = (⟨"https://origin.test", "gw", ["old.example.com"], DefaultRegions⟩, some ([], true)) :=
  getEndpoints_error_discards
    ⟨"https://origin.test", "gw", ["old.example.com"], DefaultRegions⟩ "us-east-1"
    (fun c => match c with
      | none => PageResp.ok [⟨"aaa"⟩] (some "p2")
      | some _ => PageResp.fail) 2 [⟨"aaa"⟩] rfl

/-- C8: `Initialize` never changes `Site`, `Name` or `Regions`; when it returns
an error the gateway is completely unchanged, and when every provisioning step
succeeds exactly one hostname — that of the created REST API — is appended to
`Endpoints`. -/
theorem initialize_endpoints_append (ag : ApiGateway) (region : String) (o : AwsOutcomes) :
    ((Initialize ag region o).1.Site = ag.Site
      ∧ (Initialize ag region o).1.Name = ag.Name
      ∧ (Initialize ag region o).1.Regions = ag.Regions)
    ∧ ((Initialize ag region o).2 = true → (Initialize ag region o).1 = ag)
    ∧ ((Initialize ag region o).2 = false →
        ∃ id : String, o.createRestApi = some id
          ∧ (Initialize ag region o).1.Endpoints = ag.Endpoints ++ [endpointHost id region]) := by
  obtain ⟨ae, cra, pm1, pi1, cr, pm2, pi2, cd⟩ := o
  cases ae <;> cases cra <;> cases pm1 <;> cases pi1 <;> cases cr <;>
    cases pm2 <;> cases pi2 <;> cases cd <;> simp [Initialize]

/-- Witness for C8: a fully successful run on an empty endpoint list yields
exactly the one new hostname. -/
theorem initialize_endpoints_append_witness :
    (Initialize ⟨"https://origin.test", "gw", [], DefaultRegions⟩ "us-east-1"
        ⟨false, some "abc123", true, true, some "w1", true, true, true⟩).1.Endpoints
      = ["abc123.execute-api.us-east-1.amazonaws.com"] := by
  obtain ⟨id, hid, happ⟩ :=
    (initialize_endpoints_append ⟨"https://origin.test", "gw", [], DefaultRegions⟩ "us-east-1"
      ⟨false, some "abc123", true, true, some "w1", true, true, true⟩).2.2 rfl
  obtain rfl : ("abc123" : String) = id := Option.some_inj.mp hid
  rw [happ]
  rfl

/-- C9: `NewApiGateway` never returns a non-nil error: every `some` result
carries the `nil` error, every non-empty site yields a constructed gateway with
empty endpoints and the default regions, and the empty site string makes the
function panic on the out-of-range index `site[len(site)-1]` (modelled `none`)
instead of reporting an error. -/
theorem newApiGateway_no_error (site name : String) :
    (∀ (g : ApiGateway) (e : Bool), NewApiGateway site name = some (g, e) → e = false)
    ∧ (site ≠ "" → ∃ g : ApiGateway, NewApiGateway site name = some (g, false)
        ∧ g.Name = name ∧ g.Endpoints = [] ∧ g.Regions = DefaultRegions)
    ∧ NewApiGateway "" name = none := by
  refine ⟨?_, ?_, rfl⟩
  · intro g e h
    unfold NewApiGateway at h
    split at h
    · cases h
    · injection h with h1
      injection h1 with h2 h3
      exact h3.symm
  · intro hne
    have h0 : ¬ site.length = 0 := fun hlen => hne (string_of_length_zero hlen)
    refine ⟨⟨if site.back = '/' then String.mk (trimSlash site.data) else site,
      name, [], DefaultRegions⟩, ?_, rfl, rfl, rfl⟩
    unfold NewApiGateway
    rw [if_neg h0]

/-- Witness for C9 at the concrete site `https://origin.test/`. -/
theorem newApiGateway_no_error_witness :
    (∃ g : ApiGateway, NewApiGateway "https://origin.test/" "gw" = some (g, false)
      ∧ g.Name = "gw" ∧ g.Endpoints = [] ∧ g.Regions = DefaultRegions)
    ∧ NewApiGateway "" "gw" = none :=
  ⟨(newApiGateway_no_error "https://origin.test/" "gw").2.1 (by decide),
   (newApiGateway_no_error "https://origin.test/" "gw").2.2⟩

end AGR
